import Mathlib

/-!
Shallow embedding of the Image Valuation Request Client of the
schoolassess repository.

The embedded code is the retrying client `inferImageWithGroq` from
`src/lib/groqClient.ts` (the second definition in that file, lines
140-285, the one with the retry loop) and the Supabase edge function
(relay endpoint) from the unnamed source file `part_000`.

Modelling conventions:
* `fetch` and its network effects are abstracted into a transport
  oracle `transport : Nat -> TransportEvent` giving the event observed
  on each 0-based attempt.  The outbound request body (system prompt,
  image payload, temperature 0.2, max_tokens 500) does not influence
  the client-side control flow, so it is not re-modelled beyond the
  `imageDataUrl` argument.
* JavaScript exceptions are modelled by the thrown `Error` message
  string, because the source inspects only `error.message`.
* JavaScript field access on a parsed JSON object is modelled with
  `Option`: an absent (or `undefined`/`null`) field is `none`.
  Reading a property of `undefined` throws a `TypeError`; the exact
  engine message is environment specific and is modelled by the
  constant `typeErrorUndefinedMain` (what matters downstream is only
  that it does not contain the substring "server error").
* `Math.random()` in the mock path is modelled by an explicit argument
  `mockRand`: `Math.floor(Math.random() * 1000)` becomes
  `mockRand % 1000`.
* TypeScript type annotations are not enforced at run time, so the
  result record `GroqInferenceResult` carries `Option` fields: the
  running code can and does return `undefined` for a missing
  `mainItem.name` or `mainItem.estimatedValue`.
-/

/-- A secondary detected object, as produced by the upstream model and
passed through unchanged by the client. -/
structure DetectedObject where
  name : String
  estimatedValue : Rat
  confidence : Rat
deriving DecidableEq, Repr

/-- The value returned by `inferImageWithGroq` (interface
`GroqInferenceResult` in the source).  The TypeScript interface
declares `itemName : string` and `estimatedValue : number`, but at run
time the fields are whatever `parsedContent.mainItem.name` and
`parsedContent.mainItem.estimatedValue` evaluate to, which may be
`undefined`; hence `Option`. -/
structure GroqInferenceResult where
  itemName : Option String
  estimatedValue : Option Rat
  detectedObjects : List DetectedObject
deriving DecidableEq, Repr

/-- The JSON value `parsedContent.mainItem`: each field is `none` when
absent. -/
structure MainItem where
  name : Option String
  estimatedValue : Option Rat
deriving DecidableEq, Repr

/-- The model content after `JSON.parse(content)` succeeded:
`mainItem` is `none` when the parsed object has no `mainItem` field
(reading `.name` on it then throws), `otherObjects` is `none` when
absent (the source substitutes `[]` via `|| []`). -/
structure ParsedContent where
  mainItem : Option MainItem
  otherObjects : Option (List DetectedObject)
deriving DecidableEq, Repr

/-- Outcome of evaluating `data.choices[0].message.content` and then
`JSON.parse(content)` on a transport-success body. -/
inductive ContentOutcome where
  /-- `data.choices[0].message.content` itself threw (e.g. `choices`
  missing); carries the engine error message. -/
  | accessError (msg : String)
  /-- `JSON.parse(content)` threw; the source replaces it with its own
  fixed error message, so no payload is needed. -/
  | parseError
  /-- `JSON.parse(content)` succeeded. -/
  | parsed (pc : ParsedContent)
deriving DecidableEq, Repr

/-- A JSON response body.  The source reads `errorData.error?.message`
from it on the non-ok branch and `data.choices[0].message.content` on
the ok branch; both potential readings are carried. -/
structure JsonBody where
  errorMessage : Option String
  contentOutcome : ContentOutcome
deriving DecidableEq, Repr

/-- Result of `await response.json()`. -/
inductive RespBody where
  /-- The body is not valid JSON: `response.json()` rejected with the
  given engine message. -/
  | badJson (msg : String)
  | json (b : JsonBody)
deriving DecidableEq, Repr

/-- What the transport (`fetch`) produces on one attempt. -/
inductive TransportEvent where
  /-- The `fetch` call itself rejected (network-level fault); carries
  the rejection message, e.g. "Failed to fetch". -/
  | fault (msg : String)
  /-- `fetch` resolved with an HTTP response. -/
  | response (status : Nat) (statusText : String) (body : RespBody)
deriving DecidableEq, Repr

/-- Outcome of the body of one iteration of the retry loop. -/
inductive AttemptOutcome where
  | success (r : GroqInferenceResult)
  | thrown (msg : String)
deriving DecidableEq, Repr

/-- `response.ok`: status in the range 200-299. -/
def responseOk (status : Nat) : Bool :=
  decide (200 ≤ status) && decide (status < 300)

/-- JavaScript `a || fallback` for an optional string field: both
`undefined` and the empty string are falsy. -/
def jsOr (a : Option String) (fallback : String) : String :=
  match a with
  | none => fallback
  | some s => if s = "" then fallback else s

/-- JavaScript `s.includes(pat)`: `pat` occurs as a contiguous
substring of `s`. -/
def containsSub (s pat : String) : Bool :=
  decide (pat.data <:+: s.data)

/-- Representative engine message for the `TypeError` thrown by
`parsedContent.mainItem.name` when `mainItem` is `undefined`.  The
exact text is engine specific; the control flow only depends on it not
containing the substring "server error". -/
def typeErrorUndefinedMain : String :=
  "TypeError: Cannot read properties of undefined"

def MAX_RETRIES : Nat := 3

def INITIAL_RETRY_DELAY : Nat := 1000

/-- Backoff delay slept before the given 0-based attempt:
`INITIAL_RETRY_DELAY * Math.pow(2, attempt - 1)` when `attempt > 0`,
and no sleep at all before the first attempt. -/
def attemptDelay (attempt : Nat) : Nat :=
  if attempt > 0 then INITIAL_RETRY_DELAY * 2 ^ (attempt - 1) else 0

/-- Message built at source line 239 for a response with status at
least 500. -/
def serverErrorMessage (status : Nat) (b : JsonBody) : String :=
  "Groq API server error (" ++ toString status ++ "): "
    ++ jsOr b.errorMessage "Service temporarily unavailable"

/-- Message built at source line 243 for any other non-ok response. -/
def clientErrorMessage (statusText : String) (b : JsonBody) : String :=
  "Groq API error: " ++ jsOr b.errorMessage statusText

/-- Message built at source line 277 when the attempt budget is
exhausted. -/
def exhaustionMessage (lastMsg : String) : String :=
  "Failed to reach Groq API after " ++ toString MAX_RETRIES
    ++ " attempts. Last error: " ++ lastMsg

/-- One iteration of the `try` block of the retry loop (source lines
194-264): classify the transport event, producing either a returned
result or a thrown error message. -/
def processEvent : TransportEvent → AttemptOutcome
  | TransportEvent.fault msg => AttemptOutcome.thrown msg
  | TransportEvent.response status statusText body =>
    if responseOk status then
      match body with
      | RespBody.badJson msg => AttemptOutcome.thrown msg
      | RespBody.json b =>
        match b.contentOutcome with
        | ContentOutcome.accessError msg => AttemptOutcome.thrown msg
        | ContentOutcome.parseError =>
          AttemptOutcome.thrown "Invalid response format from model"
        | ContentOutcome.parsed pc =>
          match pc.mainItem with
          | none => AttemptOutcome.thrown typeErrorUndefinedMain
          | some mi =>
            AttemptOutcome.success
              ⟨mi.name, mi.estimatedValue, pc.otherObjects.getD []⟩
    else
      match body with
      | RespBody.badJson msg => AttemptOutcome.thrown msg
      | RespBody.json b =>
        if 500 ≤ status then
          AttemptOutcome.thrown (serverErrorMessage status b)
        else
          AttemptOutcome.thrown (clientErrorMessage statusText b)

deriving instance DecidableEq for Except

/-- Observable trace of one call: the final outcome, the number of
transport invocations, and the backoff delays slept, in order. -/
structure RunTrace where
  result : Except String GroqInferenceResult
  attempts : Nat
  delays : List Nat
deriving DecidableEq, Repr

/-- The retry loop `for (let attempt = 0; attempt < MAX_RETRIES;
attempt++)` of source lines 165-284, by recursion on the remaining
iterations.  A thrown error whose message does not contain
"server error" is rethrown at once (line 271); on the last attempt the
exhaustion error is thrown (line 277); otherwise the loop continues.
The fuel-0 case is the unreachable fall-through after the loop (line
284). -/
def retryLoopAux (transport : Nat → TransportEvent) :
    Nat → Nat → RunTrace
  | _, 0 => ⟨Except.error "Unexpected error in retry loop", 0, []⟩
  | attempt, fuel + 1 =>
    let ds : List Nat := if attempt > 0 then [attemptDelay attempt] else []
    match processEvent (transport attempt) with
    | AttemptOutcome.success r => ⟨Except.ok r, 1, ds⟩
    | AttemptOutcome.thrown msg =>
      if containsSub msg "server error" = false then
        ⟨Except.error msg, 1, ds⟩
      else if attempt = MAX_RETRIES - 1 then
        ⟨Except.error (exhaustionMessage msg), 1, ds⟩
      else
        let rest := retryLoopAux transport (attempt + 1) fuel
        ⟨rest.result, rest.attempts + 1, ds ++ rest.delays⟩

/-- The mock result returned when no API key is configured (source
lines 150-161): `Math.floor(Math.random() * 1000) + 50` with the
random draw made explicit. -/
def mockResult (mockRand : Nat) : GroqInferenceResult :=
  ⟨some "Sample Item (Mocked)", some ((mockRand % 1000 + 50 : Nat) : Rat), []⟩

set_option linter.unusedVariables false in
/-- The client `inferImageWithGroq` (source lines 149-285).  `apiKey`
models `VITE_GROQ_API_KEY` (`none` when missing), `mockRand` the
`Math.random()` draw consumed only on the mock path, `imageDataUrl`
the caller-supplied payload (embedded in the request and otherwise
unused by the control flow: the source performs no validation on it),
`transport` the fetch oracle. -/
def inferImageWithGroq (apiKey : Option String) (mockRand : Nat)
    (imageDataUrl : String) (transport : Nat → TransportEvent) : RunTrace :=
  match apiKey with
  | none => ⟨Except.ok (mockResult mockRand), 0, []⟩
  | some _ => retryLoopAux transport 0 MAX_RETRIES

/-! Relay endpoint (Supabase edge function, source file `part_000`). -/

inductive HttpMethod where
  | options
  | post
  | other (m : String)
deriving DecidableEq, Repr

/-- Result of `await req.json()` on the caller request:
either a rejection, or a body whose `imageDataUrl` field is `none`
when absent. -/
inductive RelayReqBody where
  | badJson (msg : String)
  | json (imageDataUrl : Option String)
deriving DecidableEq, Repr

structure RelayRequest where
  method : HttpMethod
  body : RelayReqBody
deriving DecidableEq, Repr

/-- The upstream error body as read by the relay on a non-ok status:
`rawText` is `await response.text()`, and `parsed = some m` when
`JSON.parse(rawText)` succeeds with `error?.message = m`. -/
structure EdgeErrBody where
  rawText : String
  parsed : Option (Option String)
deriving DecidableEq, Repr

/-- What the relay observes from its single upstream `fetch`.  On a
non-ok status the relay reads `errBody`; on an ok status it reads
`okBody`. -/
inductive EdgeUpstreamEvent where
  | fault (msg : String)
  | response (status : Nat) (statusText : String)
      (errBody : EdgeErrBody) (okBody : RespBody)
deriving DecidableEq, Repr

inductive RelayBody where
  | result (r : GroqInferenceResult)
  | err (msg : String)
deriving DecidableEq, Repr

/-- An HTTP response produced by the relay: status code, whether the
permissive CORS headers are attached, whether a JSON content type is
attached, and the body (`none` for an empty body). -/
structure RelayResponse where
  status : Nat
  cors : Bool
  contentTypeJson : Bool
  body : Option RelayBody
deriving DecidableEq, Repr

/-- Error message thrown by the relay for a non-ok upstream status:
the parsed error message when the body text is JSON, the raw body text
otherwise (wrapped as the fallback error object), with
`response.statusText` substituted for a falsy message. -/
def relayUpstreamErrorMessage (status : Nat) (statusText : String)
    (eb : EdgeErrBody) : String :=
  "Groq API error (" ++ toString status ++ "): "
    ++ jsOr (match eb.parsed with
             | some m => m
             | none => some eb.rawText) statusText

/-- The body of the `try` block of the relay handler: produces the
result to serialise, or the message of the error that reaches the
`catch` block. -/
def relayTry (groqApiKey : Option String) (req : RelayRequest)
    (upstream : EdgeUpstreamEvent) : Except String GroqInferenceResult :=
  match groqApiKey with
  | none => Except.error "GROQ_API_KEY environment variable is not set"
  | some _ =>
    match req.body with
    | RelayReqBody.badJson msg => Except.error msg
    | RelayReqBody.json img =>
      if img.getD "" = "" then
        Except.error "Missing imageDataUrl in request body"
      else
        match upstream with
        | EdgeUpstreamEvent.fault msg => Except.error msg
        | EdgeUpstreamEvent.response status statusText eb okBody =>
          if responseOk status then
            match okBody with
            | RespBody.badJson msg => Except.error msg
            | RespBody.json b =>
              match b.contentOutcome with
              | ContentOutcome.accessError msg => Except.error msg
              | ContentOutcome.parseError =>
                Except.error "Invalid response format from model"
              | ContentOutcome.parsed pc =>
                match pc.mainItem with
                | none => Except.error typeErrorUndefinedMain
                | some mi =>
                  Except.ok ⟨mi.name, mi.estimatedValue, pc.otherObjects.getD []⟩
          else
            Except.error (relayUpstreamErrorMessage status statusText eb)

/-- The `Deno.serve` handler of the relay (source file `part_000`).
An OPTIONS request is answered at once with the default status 200, an
empty body and the CORS headers; otherwise the try block runs and the
catch block turns any thrown error into a 500 response with a JSON
error body (falling back to a fixed message for a falsy one). -/
def serveHandler (groqApiKey : Option String) (req : RelayRequest)
    (upstream : EdgeUpstreamEvent) : RelayResponse :=
  if req.method = HttpMethod.options then
    ⟨200, true, false, none⟩
  else
    match relayTry groqApiKey req upstream with
    | Except.ok r => ⟨200, true, true, some (RelayBody.result r)⟩
    | Except.error msg =>
      ⟨500, true, true,
        some (RelayBody.err (if msg = "" then "Internal server error" else msg))⟩

/-! Helper lemmas about the classification of one attempt. -/

theorem responseOk_false (status : Nat) (h : ¬ (200 ≤ status ∧ status < 300)) :
    responseOk status = false := by
  unfold responseOk
  by_cases h1 : 200 ≤ status
  · have h2 : ¬ status < 300 := fun hc => h ⟨h1, hc⟩
    simp [h1, h2]
  · simp [h1]

theorem processEvent_server (status : Nat) (statusText : String) (b : JsonBody)
    (h : 500 ≤ status) :
    processEvent (TransportEvent.response status statusText (RespBody.json b))
      = AttemptOutcome.thrown (serverErrorMessage status b) := by
  have hok : responseOk status = false := responseOk_false status (by omega)
  simp [processEvent, hok, h]

theorem processEvent_client (status : Nat) (statusText : String) (b : JsonBody)
    (h4 : 300 ≤ status) (h5 : status < 500) :
    processEvent (TransportEvent.response status statusText (RespBody.json b))
      = AttemptOutcome.thrown (clientErrorMessage statusText b) := by
  have hok : responseOk status = false := responseOk_false status (by omega)
  have hns : ¬ 500 ≤ status := by omega
  simp [processEvent, hok, hns]

theorem processEvent_ok_main (status : Nat) (statusText : String)
    (em : Option String) (mi : MainItem) (oo : Option (List DetectedObject))
    (hok : responseOk status = true) :
    processEvent (TransportEvent.response status statusText
        (RespBody.json ⟨em, ContentOutcome.parsed ⟨some mi, oo⟩⟩))
      = AttemptOutcome.success ⟨mi.name, mi.estimatedValue, oo.getD []⟩ := by
  simp [processEvent, hok]

theorem processEvent_ok_parseError (status : Nat) (statusText : String)
    (em : Option String) (hok : responseOk status = true) :
    processEvent (TransportEvent.response status statusText
        (RespBody.json ⟨em, ContentOutcome.parseError⟩))
      = AttemptOutcome.thrown "Invalid response format from model" := by
  simp [processEvent, hok]

/-! Helper lemmas about the substring test. -/

theorem containsSub_append_left (a b pat : String)
    (h : containsSub a pat = true) : containsSub (a ++ b) pat = true := by
  simp only [containsSub, decide_eq_true_eq] at h ⊢
  rw [String.data_append]
  exact h.trans ⟨[], b.data, by simp⟩

theorem containsSub_serverErrorMessage (status : Nat) (b : JsonBody) :
    containsSub (serverErrorMessage status b) "server error" = true := by
  unfold serverErrorMessage
  exact containsSub_append_left _ _ _
    (containsSub_append_left _ _ _ (containsSub_append_left _ _ _ (by decide)))

/-! Helper lemmas unfolding the retry loop one attempt at a time. -/

theorem retryLoopAux_success_step (t : Nat → TransportEvent) (a f : Nat)
    (r : GroqInferenceResult)
    (h : processEvent (t a) = AttemptOutcome.success r) :
    retryLoopAux t a (f + 1)
      = ⟨Except.ok r, 1, if a > 0 then [attemptDelay a] else []⟩ := by
  simp [retryLoopAux, h]

theorem retryLoopAux_terminal_step (t : Nat → TransportEvent) (a f : Nat)
    (msg : String) (h : processEvent (t a) = AttemptOutcome.thrown msg)
    (hm : containsSub msg "server error" = false) :
    retryLoopAux t a (f + 1)
      = ⟨Except.error msg, 1, if a > 0 then [attemptDelay a] else []⟩ := by
  simp [retryLoopAux, h, hm]

theorem retryLoopAux_exhaust_step (t : Nat → TransportEvent) (f : Nat)
    (msg : String) (h : processEvent (t 2) = AttemptOutcome.thrown msg)
    (hm : containsSub msg "server error" = true) :
    retryLoopAux t 2 (f + 1)
      = ⟨Except.error (exhaustionMessage msg), 1, [attemptDelay 2]⟩ := by
  simp [retryLoopAux, h, hm, MAX_RETRIES]

theorem retryLoopAux_retry_step (t : Nat → TransportEvent) (a f : Nat)
    (msg : String) (h : processEvent (t a) = AttemptOutcome.thrown msg)
    (hm : containsSub msg "server error" = true)
    (ha : ¬ a = MAX_RETRIES - 1) :
    retryLoopAux t a (f + 1)
      = ⟨(retryLoopAux t (a + 1) f).result,
         (retryLoopAux t (a + 1) f).attempts + 1,
         (if a > 0 then [attemptDelay a] else [])
           ++ (retryLoopAux t (a + 1) f).delays⟩ := by
  simp [retryLoopAux, h, hm, ha]

theorem inferImageWithGroq_some_eq (k : String) (r : Nat) (img : String)
    (t : Nat → TransportEvent) :
    inferImageWithGroq (some k) r img t = retryLoopAux t 0 MAX_RETRIES := rfl

/-- A thrown first attempt whose message lacks the substring
"server error" ends the whole call at once. -/
theorem run_first_terminal (t : Nat → TransportEvent) (msg : String)
    (k img : String) (r : Nat)
    (h : processEvent (t 0) = AttemptOutcome.thrown msg)
    (hm : containsSub msg "server error" = false) :
    inferImageWithGroq (some k) r img t = ⟨Except.error msg, 1, []⟩ := by
  have h3 : MAX_RETRIES = 2 + 1 := rfl
  rw [inferImageWithGroq_some_eq, h3, retryLoopAux_terminal_step t 0 2 msg h hm]
  rfl

/-- A successful first attempt ends the whole call at once. -/
theorem run_first_success (t : Nat → TransportEvent)
    (res : GroqInferenceResult) (k img : String) (r : Nat)
    (h : processEvent (t 0) = AttemptOutcome.success res) :
    inferImageWithGroq (some k) r img t = ⟨Except.ok res, 1, []⟩ := by
  have h3 : MAX_RETRIES = 2 + 1 := rfl
  rw [inferImageWithGroq_some_eq, h3, retryLoopAux_success_step t 0 2 res h]
  rfl

/-- A retryable first attempt followed by a successful second attempt:
two transport calls and one backoff sleep of the base delay. -/
theorem run_retry_then_success (t : Nat → TransportEvent) (msg : String)
    (res : GroqInferenceResult) (k img : String) (r : Nat)
    (h0 : processEvent (t 0) = AttemptOutcome.thrown msg)
    (hm : containsSub msg "server error" = true)
    (h1 : processEvent (t 1) = AttemptOutcome.success res) :
    inferImageWithGroq (some k) r img t
      = ⟨Except.ok res, 2, [INITIAL_RETRY_DELAY]⟩ := by
  have h3 : MAX_RETRIES = 2 + 1 := rfl
  rw [inferImageWithGroq_some_eq, h3,
    retryLoopAux_retry_step t 0 2 msg h0 hm (by decide),
    retryLoopAux_success_step t 1 1 res h1]
  rfl

theorem retryLoopAux_attempts_pos (t : Nat → TransportEvent) (a f : Nat) :
    1 ≤ (retryLoopAux t a (f + 1)).attempts := by
  cases hP : processEvent (t a) with
  | success res => simp [retryLoopAux, hP]
  | thrown msg =>
    by_cases hm : containsSub msg "server error" = false
    · simp [retryLoopAux, hP, hm]
    · by_cases ha : a = MAX_RETRIES - 1
      · subst ha
        simp [retryLoopAux, hP, hm]
      · simp [retryLoopAux, hP, hm, ha]

/-! Concrete transport stubs used as explicit inputs below. -/

/-- Stub transport: a network-level fault on the first attempt, a
well-formed success on every later attempt. -/
def stubFaultThenSuccess : Nat → TransportEvent := fun i =>
  if i = 0 then TransportEvent.fault "Failed to fetch"
  else TransportEvent.response 200 "OK"
    (RespBody.json ⟨none,
      ContentOutcome.parsed ⟨some ⟨some "Projector", some 450⟩, none⟩⟩)

/-- Stub transport: every attempt succeeds with a well-formed Desk
response carrying no secondary objects. -/
def stubDeskSuccess : Nat → TransportEvent := fun _ =>
  TransportEvent.response 200 "OK"
    (RespBody.json ⟨none,
      ContentOutcome.parsed ⟨some ⟨some "Desk", some 120⟩, none⟩⟩)

/-- Stub transport: transport success whose parsed content has a
`mainItem` with `estimatedValue` 120 but no `name` (the P3 example of
the specification). -/
def stubMissingName : Nat → TransportEvent := fun _ =>
  TransportEvent.response 200 "OK"
    (RespBody.json ⟨none, ContentOutcome.parsed ⟨some ⟨none, some 120⟩, none⟩⟩)

/-- Stub transport: transport success whose model content is not valid
JSON. -/
def stubParseError : Nat → TransportEvent := fun _ =>
  TransportEvent.response 200 "OK" (RespBody.json ⟨none, ContentOutcome.parseError⟩)

/-! Claim C1. -/

/-- C1, counterexample.  The claim says a network-level transport
fault with attempts remaining is classified as transient and retried.
On the explicit input where the first attempt is a fetch rejection
with the typical message "Failed to fetch" and the second attempt
would succeed, the client instead fails at once: one transport call,
no retry, and the rejection is propagated unchanged. -/
theorem C1_counterexample :
    (inferImageWithGroq (some "key") 0 "data-url" stubFaultThenSuccess).attempts = 1
    ∧ (inferImageWithGroq (some "key") 0 "data-url" stubFaultThenSuccess).result
        = Except.error "Failed to fetch" := by
  decide

/-- C1, amended.  A network-level transport fault is retried only when
its rejection message happens to contain the substring "server error";
otherwise (as for every ordinary fetch rejection message) the failure
is terminal: the client makes exactly one transport call and
propagates the message unchanged.  When the message does contain the
substring and the next attempt succeeds, the client retries after the
base delay. -/
theorem C1_amended_fault_retry_only_on_substring :
    (∀ (t : Nat → TransportEvent) (msg k img : String) (r : Nat),
        t 0 = TransportEvent.fault msg →
        containsSub msg "server error" = false →
        inferImageWithGroq (some k) r img t = ⟨Except.error msg, 1, []⟩)
    ∧ (∀ (t : Nat → TransportEvent) (msg k img : String) (r : Nat)
          (res : GroqInferenceResult),
        t 0 = TransportEvent.fault msg →
        containsSub msg "server error" = true →
        processEvent (t 1) = AttemptOutcome.success res →
        inferImageWithGroq (some k) r img t
          = ⟨Except.ok res, 2, [INITIAL_RETRY_DELAY]⟩) := by
  constructor
  · intro t msg k img r ht hm
    refine run_first_terminal t msg k img r ?_ hm
    rw [ht]
    rfl
  · intro t msg k img r res ht hm h1
    refine run_retry_then_success t msg res k img r ?_ hm h1
    rw [ht]
    rfl

/-- C1, witness for the amended theorem at the concrete
counterexample input. -/
theorem C1_witness :
    inferImageWithGroq (some "key") 0 "data-url" stubFaultThenSuccess
      = ⟨Except.error "Failed to fetch", 1, []⟩ :=
  C1_amended_fault_retry_only_on_substring.1
    stubFaultThenSuccess "Failed to fetch" "key" "data-url" 0 rfl (by decide)

/-! Claim C2. -/

/-- C2, counterexample.  The claim says a call with an empty image
payload fails with an EmptyInput error before any transport call.  On
the explicit input with an API key, the empty payload and a stub
transport that answers successfully, the client makes one transport
call (not zero) and returns that success, with no error of any
kind. -/
theorem C2_counterexample :
    (inferImageWithGroq (some "key") 0 "" stubDeskSuccess).attempts = 1
    ∧ (inferImageWithGroq (some "key") 0 "" stubDeskSuccess).result
        = Except.ok ⟨some "Desk", some 120, []⟩ := by
  decide

/-- C2, amended.  The client performs no empty-input validation at
all: with an API key configured, a call with the empty payload runs
exactly as a call with any other payload (the payload never influences
the control flow) and always makes at least one transport call. -/
theorem C2_amended_no_empty_input_validation :
    ∀ (k img : String) (r : Nat) (t : Nat → TransportEvent),
      inferImageWithGroq (some k) r "" t = inferImageWithGroq (some k) r img t
      ∧ 1 ≤ (inferImageWithGroq (some k) r "" t).attempts := by
  intro k img r t
  exact ⟨rfl, retryLoopAux_attempts_pos t 0 2⟩

/-! Claim C3. -/

/-- C3, counterexample.  The claim says a transport-success whose
parsed content is missing the primary item name fails with a
MalformedUpstreamResponse error.  On the very example given in the specification
(a `mainItem` with `estimatedValue` 120 and no `name`), the client
instead returns a success whose `itemName` is the undefined value. -/
theorem C3_counterexample :
    (inferImageWithGroq (some "key") 0 "data-url" stubMissingName).result
        = Except.ok ⟨none, some 120, []⟩
    ∧ (inferImageWithGroq (some "key") 0 "data-url" stubMissingName).attempts = 1 := by
  decide

/-- C3, amended.  A transport-success whose model content is not valid
JSON fails with the fixed malformed-response error and no retry
(exactly one transport call); but a transport-success whose parsed
content has a `mainItem` lacking `name` (or `estimatedValue`) does not
fail: the client returns a success result carrying the undefined value
for the missing field, after exactly one transport call. -/
theorem C3_amended_malformed_content :
    (∀ (t : Nat → TransportEvent) (status : Nat) (st k img : String)
        (em : Option String) (r : Nat),
        t 0 = TransportEvent.response status st
            (RespBody.json ⟨em, ContentOutcome.parseError⟩) →
        responseOk status = true →
        inferImageWithGroq (some k) r img t
          = ⟨Except.error "Invalid response format from model", 1, []⟩)
    ∧ (∀ (t : Nat → TransportEvent) (status : Nat) (st k img : String)
        (em : Option String) (v : Option Rat)
        (oo : Option (List DetectedObject)) (r : Nat),
        t 0 = TransportEvent.response status st
            (RespBody.json ⟨em, ContentOutcome.parsed ⟨some ⟨none, v⟩, oo⟩⟩) →
        responseOk status = true →
        inferImageWithGroq (some k) r img t
          = ⟨Except.ok ⟨none, v, oo.getD []⟩, 1, []⟩) := by
  constructor
  · intro t status st k img em r ht hok
    refine run_first_terminal t _ k img r ?_ (by decide)
    rw [ht]
    exact processEvent_ok_parseError status st em hok
  · intro t status st k img em v oo r ht hok
    refine run_first_success t _ k img r ?_
    rw [ht]
    exact processEvent_ok_main status st em ⟨none, v⟩ oo hok

/-- C3, witness for the amended theorem at a concrete unparsable
content. -/
theorem C3_witness :
    inferImageWithGroq (some "key") 0 "data-url" stubParseError
      = ⟨Except.error "Invalid response format from model", 1, []⟩ :=
  C3_amended_malformed_content.1 stubParseError 200 "OK" "key" "data-url"
    none 0 rfl (by decide)

/-! Claim C4. -/

/-- Stub transport: every attempt answers 503 with a body that is not
valid JSON (e.g. an HTML error page), so the error-body read at source
line 230 rejects with a parse error. -/
def stub503NonJsonBody : Nat → TransportEvent := fun _ =>
  TransportEvent.response 503 "Service Unavailable"
    (RespBody.badJson "SyntaxError: Unexpected token < in JSON")

/-- C4, counterexample.  The claim says a transient (5xx) failure on
every attempt yields exactly 3 attempts and the exhaustion error.  On
the explicit input where every attempt is a 503 whose body is not
valid JSON, the error-body read (source line 230, before any
classification) rejects with a parse error whose message lacks the
substring "server error", so the client rethrows it after exactly ONE
transport call: no retry, no exhaustion error. -/
theorem C4_counterexample :
    (inferImageWithGroq (some "key") 0 "data-url" stub503NonJsonBody).attempts = 1
    ∧ (inferImageWithGroq (some "key") 0 "data-url" stub503NonJsonBody).result
        = Except.error "SyntaxError: Unexpected token < in JSON" := by
  decide

/-- C4, amended.  When every attempt yields a 5xx response whose error
body is valid JSON (the condition the counterexample forces: the
source reads the error body as JSON before classifying, and a 5xx with
a non-JSON body is terminal after one attempt), the client makes
exactly MAX_RETRIES = 3 transport calls, sleeping the backoff delays
1000 and 2000 between them, and then fails with the exhaustion error,
which states the number of attempts made and wraps the last transient
failure message; no further attempt occurs. -/
theorem C4_exhaustion_after_three_attempts
    (t : Nat → TransportEvent) (s : Nat → Nat) (st : Nat → String)
    (b : Nat → JsonBody) (k img : String) (r : Nat)
    (hresp : ∀ i, i < MAX_RETRIES →
      t i = TransportEvent.response (s i) (st i) (RespBody.json (b i)))
    (h5 : ∀ i, i < MAX_RETRIES → 500 ≤ s i) :
    inferImageWithGroq (some k) r img t
      = ⟨Except.error (exhaustionMessage (serverErrorMessage (s 2) (b 2))),
         MAX_RETRIES, [1000, 2000]⟩ := by
  have e0 : processEvent (t 0)
      = AttemptOutcome.thrown (serverErrorMessage (s 0) (b 0)) := by
    rw [hresp 0 (by decide)]
    exact processEvent_server (s 0) (st 0) (b 0) (h5 0 (by decide))
  have e1 : processEvent (t 1)
      = AttemptOutcome.thrown (serverErrorMessage (s 1) (b 1)) := by
    rw [hresp 1 (by decide)]
    exact processEvent_server (s 1) (st 1) (b 1) (h5 1 (by decide))
  have e2 : processEvent (t 2)
      = AttemptOutcome.thrown (serverErrorMessage (s 2) (b 2)) := by
    rw [hresp 2 (by decide)]
    exact processEvent_server (s 2) (st 2) (b 2) (h5 2 (by decide))
  have A2 : retryLoopAux t 2 1
      = ⟨Except.error (exhaustionMessage (serverErrorMessage (s 2) (b 2))),
         1, [attemptDelay 2]⟩ :=
    retryLoopAux_exhaust_step t 0 _ e2 (containsSub_serverErrorMessage _ _)
  have A1 : retryLoopAux t 1 2
      = ⟨(retryLoopAux t 2 1).result, (retryLoopAux t 2 1).attempts + 1,
         (if 1 > 0 then [attemptDelay 1] else []) ++ (retryLoopAux t 2 1).delays⟩ :=
    retryLoopAux_retry_step t 1 1 _ e1 (containsSub_serverErrorMessage _ _)
      (by decide)
  rw [A2] at A1
  have A0 : retryLoopAux t 0 3
      = ⟨(retryLoopAux t 1 2).result, (retryLoopAux t 1 2).attempts + 1,
         (if 0 > 0 then [attemptDelay 0] else []) ++ (retryLoopAux t 1 2).delays⟩ :=
    retryLoopAux_retry_step t 0 2 _ e0 (containsSub_serverErrorMessage _ _)
      (by decide)
  rw [A1] at A0
  rw [inferImageWithGroq_some_eq]
  rw [show MAX_RETRIES = 3 from rfl] 
  rw [A0]
  rfl

/-- Stub transport: every attempt answers 503 with a JSON error body
carrying the message "overloaded". -/
def stub503 : Nat → TransportEvent := fun _ =>
  TransportEvent.response 503 "Service Unavailable"
    (RespBody.json ⟨some "overloaded", ContentOutcome.parseError⟩)

/-- C4, witness at the always-503 stub. -/
theorem C4_witness :
    inferImageWithGroq (some "key") 0 "data-url" stub503
      = ⟨Except.error (exhaustionMessage (serverErrorMessage 503
            ⟨some "overloaded", ContentOutcome.parseError⟩)),
         3, [1000, 2000]⟩ :=
  C4_exhaustion_after_three_attempts stub503 (fun _ => 503)
    (fun _ => "Service Unavailable")
    (fun _ => ⟨some "overloaded", ContentOutcome.parseError⟩)
    "key" "data-url" 0 (fun _ _ => rfl) (fun _ _ => by show (500 : Nat) ≤ 503; decide)

/-! Claim C5. -/

/-- Stub transport: a 400 response whose upstream error message
happens to contain the text "server error", then a well-formed
success. -/
def stub400WithServerErrorText : Nat → TransportEvent := fun i =>
  if i = 0 then
    TransportEvent.response 400 "Bad Request"
      (RespBody.json ⟨some "upstream server error while validating request",
        ContentOutcome.parseError⟩)
  else
    TransportEvent.response 200 "OK"
      (RespBody.json ⟨none,
        ContentOutcome.parsed ⟨some ⟨some "Projector", some 450⟩, none⟩⟩)

/-- C5, counterexample.  The claim says every 400-499 response is
terminal with exactly one transport attempt and no retry regardless of
remaining budget.  On the explicit input whose first attempt is a 400
response carrying the upstream message "upstream server error while
validating request", the client retries: two transport calls are made
and the success of the second attempt is returned. -/
theorem C5_counterexample :
    (inferImageWithGroq (some "key") 0 "data-url" stub400WithServerErrorText).attempts = 2
    ∧ (inferImageWithGroq (some "key") 0 "data-url" stub400WithServerErrorText).result
        = Except.ok ⟨some "Projector", some 450, []⟩ := by
  decide

/-- C5, amended.  A 400-499 response with a JSON error body fails
immediately with the message built from the upstream-provided error
message (falling back to the status text), after exactly one transport
attempt and with no retry - provided the resulting message does not
contain the substring "server error" (when it does, the counterexample
shows the client retries). -/
theorem C5_amended_client_error_terminal
    (t : Nat → TransportEvent) (status : Nat) (st k img : String)
    (b : JsonBody) (r : Nat)
    (hresp : t 0 = TransportEvent.response status st (RespBody.json b))
    (h4 : 400 ≤ status) (h4b : status < 500)
    (hm : containsSub (clientErrorMessage st b) "server error" = false) :
    inferImageWithGroq (some k) r img t
      = ⟨Except.error (clientErrorMessage st b), 1, []⟩ := by
  refine run_first_terminal t _ k img r ?_ hm
  rw [hresp]
  exact processEvent_client status st b (by omega) h4b

/-- Stub transport: every attempt answers 400 with the JSON error body
of the P6 example of the specification. -/
def stub400BadRequest : Nat → TransportEvent := fun _ =>
  TransportEvent.response 400 "Bad Request"
    (RespBody.json ⟨some "bad request", ContentOutcome.parseError⟩)

/-- C5, witness for the amended theorem at the P6 example of the specification: the
example input. -/
theorem C5_witness :
    inferImageWithGroq (some "key") 0 "data-url" stub400BadRequest
      = ⟨Except.error "Groq API error: bad request", 1, []⟩ :=
  C5_amended_client_error_terminal stub400BadRequest 400 "Bad Request"
    "key" "data-url" ⟨some "bad request", ContentOutcome.parseError⟩ 0
    rfl (by decide) (by decide) (by decide)

/-! Claim C6. -/

/-- C6.  Retryability is decided solely by whether the thrown error
message contains the substring "server error", not by the HTTP status
code: a 400 response whose upstream-provided message contains that
text is classified as transient and retried (first conjunct, at an
explicit input), while every thrown error whose message lacks the
substring is terminal after exactly one transport call (second
conjunct, for every transport). -/
theorem C6_retryability_decided_by_message_substring :
    ((inferImageWithGroq (some "key") 0 "data-url" stub400WithServerErrorText).attempts = 2
      ∧ (inferImageWithGroq (some "key") 0 "data-url" stub400WithServerErrorText).result
          = Except.ok ⟨some "Projector", some 450, []⟩)
    ∧ (∀ (t : Nat → TransportEvent) (msg k img : String) (r : Nat),
        processEvent (t 0) = AttemptOutcome.thrown msg →
        containsSub msg "server error" = false →
        inferImageWithGroq (some k) r img t = ⟨Except.error msg, 1, []⟩) := by
  constructor
  · decide
  · intro t msg k img r h hm
    exact run_first_terminal t msg k img r h hm

/-- C6, witness for the general terminal conjunct at a network fault
whose message lacks the substring. -/
theorem C6_witness :
    inferImageWithGroq (some "key") 1 "payload" stubFaultThenSuccess
      = ⟨Except.error "Failed to fetch", 1, []⟩ :=
  C6_retryability_decided_by_message_substring.2 stubFaultThenSuccess
    "Failed to fetch" "key" "payload" 1 (by decide) (by decide)

/-! Claim C7. -/

/-- C7.  The backoff schedule: no delay before the first attempt, and
for every 1-based attempt number n at least 2 the delay slept before
attempt n is INITIAL_RETRY_DELAY * 2 ^ (n - 2); under the default
configuration (MAX_RETRIES = 3, INITIAL_RETRY_DELAY = 1000) the delays
before attempts 1, 2, 3 are 0, 1000 and 2000. -/
theorem C7_backoff_schedule :
    (attemptDelay 0 = 0 ∧ attemptDelay 1 = 1000 ∧ attemptDelay 2 = 2000)
    ∧ MAX_RETRIES = 3 ∧ INITIAL_RETRY_DELAY = 1000
    ∧ (∀ n : Nat, 2 ≤ n →
        attemptDelay (n - 1) = INITIAL_RETRY_DELAY * 2 ^ (n - 2)) := by
  refine ⟨by decide, rfl, rfl, ?_⟩
  intro n hn
  unfold attemptDelay
  rw [if_pos (by omega)]
  have h : n - 1 - 1 = n - 2 := by omega
  rw [h]

/-- C7, witness for the general schedule at n = 3. -/
theorem C7_witness :
    attemptDelay (3 - 1) = INITIAL_RETRY_DELAY * 2 ^ (3 - 2) :=
  C7_backoff_schedule.2.2.2 3 (by decide)

/-! Claim C8. -/

/-- C8.  A transport-success whose parsed content has a `mainItem`
with both `name` and `estimatedValue` yields, after exactly one
transport call and never an error, a result whose `itemName` is the
name of the main item, whose `estimatedValue` is its value, and
whose `detectedObjects` is the `otherObjects` list, with the empty
sequence substituted when `otherObjects` is absent. -/
theorem C8_success_result
    (t : Nat → TransportEvent) (status : Nat) (st k img nm : String)
    (em : Option String) (v : Rat) (oo : Option (List DetectedObject))
    (r : Nat)
    (hresp : t 0 = TransportEvent.response status st
        (RespBody.json ⟨em, ContentOutcome.parsed ⟨some ⟨some nm, some v⟩, oo⟩⟩))
    (hok : responseOk status = true) :
    inferImageWithGroq (some k) r img t
      = ⟨Except.ok ⟨some nm, some v, oo.getD []⟩, 1, []⟩ := by
  refine run_first_success t _ k img r ?_
  rw [hresp]
  exact processEvent_ok_main status st em ⟨some nm, some v⟩ oo hok

/-- Stub transport: the P1 example response of the specification, with one
secondary object. -/
def stubProjector : Nat → TransportEvent := fun _ =>
  TransportEvent.response 200 "OK"
    (RespBody.json ⟨none, ContentOutcome.parsed
      ⟨some ⟨some "Projector", some 450⟩, some [⟨"Cart", 80, 7/10⟩]⟩⟩)

/-- C8, witness at the P1 example of the specification (secondary objects
present) and P2 example (secondary objects absent). -/
theorem C8_witness :
    (inferImageWithGroq (some "key") 0 "data-url" stubProjector
      = ⟨Except.ok ⟨some "Projector", some 450, [⟨"Cart", 80, 7/10⟩]⟩, 1, []⟩)
    ∧ (inferImageWithGroq (some "key") 0 "data-url" stubDeskSuccess
      = ⟨Except.ok ⟨some "Desk", some 120, []⟩, 1, []⟩) :=
  ⟨C8_success_result stubProjector 200 "OK" "key" "data-url" "Projector"
      none 450 (some [⟨"Cart", 80, 7/10⟩]) 0 rfl (by decide),
   C8_success_result stubDeskSuccess 200 "OK" "key" "data-url" "Desk"
      none 120 none 0 rfl (by decide)⟩

/-! Claim C9. -/

theorem serveHandler_not_options (env : Option String) (req : RelayRequest)
    (up : EdgeUpstreamEvent) (h : ¬ req.method = HttpMethod.options) :
    serveHandler env req up
      = match relayTry env req up with
        | Except.ok r => ⟨200, true, true, some (RelayBody.result r)⟩
        | Except.error msg =>
          ⟨500, true, true,
            some (RelayBody.err (if msg = "" then "Internal server error" else msg))⟩ := by
  simp [serveHandler, h]

/-- C9.  The relay endpoint answers every OPTIONS request with a 200
response with empty body and the CORS headers only; every response it
produces carries the CORS headers and is either a 200 or a 500 whose
body is a structured JSON error object (the handler is a total
function, so no exception propagates unhandled); in particular a
missing credential, a caller body with no image payload, and any
failure reaching the catch block each produce a 500 with the
corresponding error body. -/
theorem C9_relay_cors_and_error_envelope
    (env : Option String) (req : RelayRequest) (up : EdgeUpstreamEvent) :
    (req.method = HttpMethod.options →
      serveHandler env req up = ⟨200, true, false, none⟩)
    ∧ (serveHandler env req up).cors = true
    ∧ ((serveHandler env req up).status = 200
        ∨ ((serveHandler env req up).status = 500
            ∧ ∃ m, (serveHandler env req up).body = some (RelayBody.err m)))
    ∧ (req.method ≠ HttpMethod.options → env = none →
        serveHandler env req up
          = ⟨500, true, true,
             some (RelayBody.err "GROQ_API_KEY environment variable is not set")⟩)
    ∧ (∀ key, req.method ≠ HttpMethod.options → env = some key →
        req.body = RelayReqBody.json none →
        serveHandler env req up
          = ⟨500, true, true,
             some (RelayBody.err "Missing imageDataUrl in request body")⟩)
    ∧ (∀ msg, req.method ≠ HttpMethod.options →
        relayTry env req up = Except.error msg → msg ≠ "" →
        serveHandler env req up
          = ⟨500, true, true, some (RelayBody.err msg)⟩) := by
  obtain ⟨m, body⟩ := req
  by_cases hopt : m = HttpMethod.options
  · subst hopt
    refine ⟨fun _ => by simp [serveHandler], by simp [serveHandler],
      Or.inl (by simp [serveHandler]), ?_, ?_, ?_⟩
    · intro hne _
      exact absurd rfl hne
    · intro key hne _ _
      exact absurd rfl hne
    · intro msg hne _ _
      exact absurd rfl hne
  · have hs := serveHandler_not_options env ⟨m, body⟩ up hopt
    refine ⟨fun h => absurd h hopt, ?_, ?_, ?_, ?_, ?_⟩
    · rw [hs]
      rcases relayTry env ⟨m, body⟩ up with msg | res <;> rfl
    · rw [hs]
      rcases relayTry env ⟨m, body⟩ up with msg | res
      · exact Or.inr ⟨rfl, ⟨_, rfl⟩⟩
      · exact Or.inl rfl
    · intro _ henv
      subst henv
      rw [hs]
      rfl
    · intro key _ henv hbody
      subst henv
      simp only at hbody
      subst hbody
      rw [hs]
      rfl
    · intro msg _ hTry hne
      rw [hs, hTry]
      show (⟨500, true, true,
        some (RelayBody.err (if msg = "" then "Internal server error" else msg))⟩
          : RelayResponse) = _
      rw [if_neg hne]

/-- C9, witness: concrete OPTIONS request, and a concrete POST request
with the credential missing. -/
theorem C9_witness :
    (serveHandler (some "secret") ⟨HttpMethod.options, RelayReqBody.json none⟩
        (EdgeUpstreamEvent.fault "boom") = ⟨200, true, false, none⟩)
    ∧ (serveHandler none ⟨HttpMethod.post, RelayReqBody.json (some "img")⟩
        (EdgeUpstreamEvent.fault "boom")
        = ⟨500, true, true,
           some (RelayBody.err "GROQ_API_KEY environment variable is not set")⟩) :=
  ⟨(C9_relay_cors_and_error_envelope (some "secret")
      ⟨HttpMethod.options, RelayReqBody.json none⟩
      (EdgeUpstreamEvent.fault "boom")).1 rfl,
   (C9_relay_cors_and_error_envelope none
      ⟨HttpMethod.post, RelayReqBody.json (some "img")⟩
      (EdgeUpstreamEvent.fault "boom")).2.2.2.1 (by decide) rfl⟩

/-! Claim C10. -/

/-- C10, counterexample.  The claim extends determinism to the
no-API-key code path.  That path consults `Math.random()` for the mock
estimated value, so two calls with identical input (empty key, same
payload, same transport stub) but different ambient random draws
return different results: with draws 0 and 1 the mock values are 50
and 51. -/
theorem C10_counterexample :
    inferImageWithGroq none 0 "data-url" stubDeskSuccess
      ≠ inferImageWithGroq none 1 "data-url" stubDeskSuccess := by
  decide

/-- C10, amended.  With an API key configured, the call is a pure
function of the payload and the transport: it is independent of the
ambient random draw, so repeated calls with identical input and a
deterministic transport stub produce identical traces (no hidden
mutable state).  Only the no-API-key mock path is nondeterministic. -/
theorem C10_amended_deterministic_with_key :
    ∀ (k img : String) (t : Nat → TransportEvent) (r1 r2 : Nat),
      inferImageWithGroq (some k) r1 img t
        = inferImageWithGroq (some k) r2 img t := by
  intro k img t r1 r2
  rfl
